import Mathlib

/-!
Verification development for the py3dmol repository.

The Python modules `image_server.py`, `backend_3dmol.py` and
`headless_capture.py` are shallowly embedded below.  Python dicts are
modelled as insertion-ordered association lists, machine ints as `Int`/`Nat`,
and calls into external collaborators (base64 decoding, PIL image parsing,
PNG re-encoding, HTTP transport, the selenium driver) appear as explicit
function parameters or environment fields, so that every in-repo control
path is an executable Lean definition.
-/

/-- External model of a decoded raster (the result of PIL `Image.open`):
its pixel dimensions and an opaque pixel payload. -/
structure PILImage where
  w : Nat
  h : Nat
  pixels : List Nat
deriving DecidableEq, Repr

/-- `StoredFrame`: the dict value stored in `ImageServer.pending_requests`
by `convert_image` (image_server.py lines 80-87). -/
structure StoredFrame where
  pil_image : PILImage
  numpy_array : List Nat
  timestamp : Int
  format : String
  width : Int
  height : Int
deriving DecidableEq, Repr

/-- The `pending_requests` dict: an insertion-ordered association list. -/
abbrev Store : Type := List (String × StoredFrame)

/-- `request_id in d` on a Python dict. -/
def dictContains (s : Store) (k : String) : Bool :=
  s.any (fun p => p.1 = k)

/-- `d[request_id]` lookup (first entry with the key). -/
def dictGet (s : Store) (k : String) : Option StoredFrame :=
  (List.find? (fun p => p.1 = k) s).map Prod.snd

/-- `d[request_id] = v` on a Python dict: replaces in place when the key is
present, appends otherwise. -/
def dictSet (s : Store) (k : String) (v : StoredFrame) : Store :=
  if dictContains s k then
    s.map (fun p => if p.1 = k then (k, v) else p)
  else
    s ++ [(k, v)]

/-- `del d[request_id]` on a Python dict. -/
def dictDel (s : Store) (k : String) : Store :=
  s.filter (fun p => ¬ p.1 = k)

/-- The request body of `POST /convert_image` (pydantic model `ImageData`,
image_server.py lines 22-27). -/
structure ImageData where
  request_id : String
  image_data : String
  format : String := "png"
  width : Int := 400
  height : Int := 300
deriving DecidableEq, Repr

/-- Python `str.split(',')` at the character level. -/
def splitOnCommaAux : List Char → List Char → List (List Char)
  | [], acc => [acc.reverse]
  | c :: cs, acc =>
    if c = ',' then acc.reverse :: splitOnCommaAux cs [] else splitOnCommaAux cs (c :: acc)

def splitOnComma (l : List Char) : List (List Char) :=
  splitOnCommaAux l []

/-- The data-URI stripping step of `convert_image` (image_server.py lines
63-67): `image_data.split(',')[1]` when a comma occurs, the whole payload
otherwise. -/
def stripDataURI (s : String) : String :=
  if s.toList.contains ',' then
    String.mk ((splitOnComma s.toList).getD 1 [])
  else s

/-- Interface boundary of the external decoders used by `convert_image`:
`base64.b64decode` and PIL `Image.open`, each returning `none` where the
Python call raises. -/
structure DecodeEnv where
  b64decode : String → Option (List Nat)
  imageOpen : List Nat → Option PILImage

/-- Success body of `POST /convert_image`: the `request_id` and
`image_size` fields of the JSON response. -/
structure ConvertResp where
  request_id : String
  image_size : Nat × Nat
deriving DecidableEq, Repr

/-- `POST /convert_image` handler (image_server.py lines 55-101): strips a
data-URI prefix, base64-decodes, opens the raster, and stores the resulting
frame under `request_id`, replacing any existing entry; any decode failure
raises `HTTPException(400)` before the store is touched. -/
def convert_image (env : DecodeEnv) (now : Int) (s : Store) (d : ImageData) :
    Except Nat ConvertResp × Store :=
  let base64_data := stripDataURI d.image_data
  match env.b64decode base64_data with
  | none => (Except.error 400, s)
  | some image_bytes =>
    match env.imageOpen image_bytes with
    | none => (Except.error 400, s)
    | some pil_image =>
      let frame : StoredFrame :=
        { pil_image := pil_image
          numpy_array := pil_image.pixels
          timestamp := now
          format := d.format
          width := d.width
          height := d.height }
      (Except.ok { request_id := d.request_id, image_size := (pil_image.w, pil_image.h) },
        dictSet s d.request_id frame)

/-- Success body of `GET /get_image/{request_id}`. -/
inductive GetImageView where
  | pil (image_data : String) (size : Nat × Nat)
  | numpy (data : List Nat)
deriving DecidableEq, Repr

/-- `GET /get_image/{request_id}` handler (image_server.py lines 103-136).
`encodePNG` is the external PIL save + base64-encode round trip used by the
`pil` branch.  Raises 404 when the id was never stored, 400 on an unknown
format; the store is never modified. -/
def get_image (encodePNG : PILImage → String) (s : Store) (request_id : String)
    (format : String) : Except Nat GetImageView × Store :=
  match dictGet s request_id with
  | none => (Except.error 404, s)
  | some data =>
    if format = "pil" then
      (Except.ok (GetImageView.pil
          ("data:image/png;base64," ++ encodePNG data.pil_image)
          (data.pil_image.w, data.pil_image.h)), s)
    else if format = "numpy" then
      (Except.ok (GetImageView.numpy data.numpy_array), s)
    else
      (Except.error 400, s)

/-- `DELETE /cleanup/{request_id}` handler (image_server.py lines 146-152):
returns the `status` field together with the updated store. -/
def cleanup_request (s : Store) (request_id : String) : String × Store :=
  if dictContains s request_id then
    ("cleaned", dictDel s request_id)
  else
    ("not_found", s)

/-- `ImageServer.cleanup_old_requests` (image_server.py lines 168-176):
collects the keys whose entry satisfies `current_time - timestamp >
max_age`, then deletes each collected key. -/
def cleanup_old_requests (now : Int) (s : Store) (max_age : Int := 300) : Store :=
  let expired_keys :=
    (s.filter (fun p => now - p.2.timestamp > max_age)).map Prod.fst
  expired_keys.foldl dictDel s

/-!  ## Viewer session (backend_3dmol.py) -/

/-- A `JS3DMol` viewer session (backend_3dmol.py lines 106-126): its
dimensions, element id and the ordered queue of deferred script commands. -/
structure JS3DMol where
  width : Int
  height : Int
  id : String
  commands : List String
deriving DecidableEq, Repr

/-- `JS3DMol.executeCode` (backend_3dmol.py lines 142-152): without
IPython the command is dropped with a warning; otherwise it is appended to
the queue for execution at `show` time. -/
def JS3DMol.executeCode (hasIPython : Bool) (v : JS3DMol) (code : String) : JS3DMol :=
  if hasIPython then { v with commands := v.commands ++ [code] } else v

/-- `JS3DMol._execute_queued_commands` (backend_3dmol.py lines 154-229):
returns early on an empty queue; otherwise displays one script that runs
every queued command in enqueue order (the in-browser readiness polling is
external).  The first component is the command sequence the displayed
script executes; the viewer object itself is returned unchanged, since the
method never mutates `self.commands`. -/
def JS3DMol.execute_queued_commands (v : JS3DMol) : List String × JS3DMol :=
  if v.commands.isEmpty then ([], v) else (v.commands, v)

/-- `JS3DMol.show` (backend_3dmol.py lines 607-622): without IPython it
only warns; otherwise it displays the viewer HTML and, when the queue is
nonempty, runs `_execute_queued_commands`.  Returns the executed command
sequence and the resulting session. -/
def JS3DMol.showViewer (hasIPython : Bool) (v : JS3DMol) : List String × JS3DMol :=
  if hasIPython then
    if v.commands.isEmpty then ([], v) else v.execute_queued_commands
  else ([], v)

/-!  ## Capture orchestrator (backend_3dmol.py) and headless capture -/

/-- Outcome of one `requests.get` on `/get_image/{request_id}` inside the
polling loop of `_get_image_data_fastapi` (backend_3dmol.py lines
447-467), at the interface boundary of the HTTP client. -/
inductive FetchOutcome where
  | okSuccess (image_data : String)
  | okOther (msg : String)
  | notFound
  | otherStatus (code : Nat)
  | requestError
deriving DecidableEq, Repr

/-- Environment capability signals and external call results consulted by
`get_image_data` and its two strategies. -/
structure CaptureEnv where
  is_jupyter : Bool
  server_ok : Bool
  fetchResponse : Nat → FetchOutcome
  headless_import_ok : Bool
  headless_available : Bool
  headless_result : Option String

/-- The retrieval loop of `_get_image_data_fastapi` (backend_3dmol.py
lines 448-467): up to `fuel` attempts, indexed from `attempt`; a 404
sleeps one second and retries, a 200 whose JSON status is `success`
returns the payload, any other status falls through to the next attempt,
and a `requests.RequestException` breaks out of the loop.  Returns the
result, the number of fetch attempts made and the total seconds slept. -/
def pollLoop (env : CaptureEnv) : Nat → Nat → Nat → Nat → Option String × Nat × Nat
  | 0, _, attempts, slept => (none, attempts, slept)
  | fuel + 1, attempt, attempts, slept =>
    match env.fetchResponse attempt with
    | FetchOutcome.okSuccess d => (some d, attempts + 1, slept)
    | FetchOutcome.okOther _ => pollLoop env fuel (attempt + 1) (attempts + 1) slept
    | FetchOutcome.notFound => pollLoop env fuel (attempt + 1) (attempts + 1) (slept + 1)
    | FetchOutcome.otherStatus _ => pollLoop env fuel (attempt + 1) (attempts + 1) slept
    | FetchOutcome.requestError => (none, attempts + 1, slept)

/-- The `max_attempts` bound of the retrieval loop (backend_3dmol.py line
448). -/
def max_attempts : Nat := 5

/-- `JS3DMol._get_image_data_fastapi` (backend_3dmol.py lines 266-485):
probes `/health` via `_test_server_connectivity` and returns `None` when
the server is unreachable; otherwise injects the capture script and polls
`/get_image` up to `max_attempts` times, returning the payload on success
and `None` on exhaustion or request error. -/
def get_image_data_fastapi (env : CaptureEnv) : Option String :=
  if env.server_ok then (pollLoop env max_attempts 0 0 0).1 else none

/-- Python exceptions modelled as values where the repository code
catches them. -/
inductive PyExc where
  | importError
deriving DecidableEq, Repr

/-- Body of `JS3DMol._get_image_data_headless` (backend_3dmol.py lines
487-518) before its `except ImportError` handler: importing
`headless_capture` may raise; then `is_headless_available` gates the
capture, and `capture_headless_image` either yields data or `None`.  The
returned list collects the diagnostic messages printed. -/
def get_image_data_headless_try (env : CaptureEnv) :
    Except PyExc (Option String × List String) :=
  if env.headless_import_ok then
    if env.headless_available then
      match env.headless_result with
      | some d => Except.ok (some d, ["Headless capture successful"])
      | none => Except.ok (none, ["Headless capture failed"])
    else
      Except.ok (none,
        ["Headless capture not available",
         "Install selenium: pip install selenium webdriver-manager"])
  else Except.error PyExc.importError

/-- `JS3DMol._get_image_data_headless` with its `except ImportError`
handler: a missing dependency is reported as `None` plus a
dependency-missing diagnostic, never re-raised. -/
def get_image_data_headless (env : CaptureEnv) : Option String × List String :=
  match get_image_data_headless_try env with
  | Except.ok r => r
  | Except.error PyExc.importError =>
      (none,
       ["Headless capture dependencies not available",
        "Install selenium: pip install selenium webdriver-manager"])

/-- `JS3DMol.get_image_data` (backend_3dmol.py lines 231-264), the
auto-detect entry point, modelled with uncaught exceptions as
`Except.error`: forced headless goes straight to the headless path; a
Jupyter environment tries the FastAPI path and falls back to headless when
it returns `None`; any other environment uses the headless path. -/
def get_image_data (env : CaptureEnv) (force_headless : Bool) :
    Except PyExc (Option String × List String) :=
  if force_headless then Except.ok (get_image_data_headless env)
  else if env.is_jupyter then
    match get_image_data_fastapi env with
    | none =>
      let (r, log) := get_image_data_headless env
      Except.ok (r, "FastAPI method failed, falling back to headless capture" :: log)
    | some r => Except.ok (some r, [])
  else Except.ok (get_image_data_headless env)

/-- A `HeadlessCapture` instance (headless_capture.py lines 22-102): its
only state relevant here is the selenium driver handle created by
`_setup_driver`, `none` when every driver failed to initialize. -/
structure HeadlessCapture where
  driver : Option Nat
deriving DecidableEq, Repr

/-- `HeadlessCapture.is_available` (headless_capture.py lines 100-102). -/
def HeadlessCapture.is_available (c : HeadlessCapture) : Bool :=
  c.driver.isSome

/-- The module-level state of headless_capture.py: the `_headless_capture`
global plus a count of how many `HeadlessCapture` constructions have
happened in the process. -/
structure HCState where
  cached : Option HeadlessCapture
  constructions : Nat
deriving DecidableEq, Repr

/-- `get_headless_capture` (headless_capture.py lines 372-377): constructs
a `HeadlessCapture` only when the global is still `None`, and otherwise
returns the cached instance unchanged.  `setup` is the external result of
`_setup_driver` for the n-th construction. -/
def get_headless_capture (setup : Nat → Option Nat) (st : HCState) :
    HeadlessCapture × HCState :=
  match st.cached with
  | some c => (c, st)
  | none =>
    let c : HeadlessCapture := { driver := setup st.constructions }
    (c, { cached := some c, constructions := st.constructions + 1 })

/-- `capture_headless_image` (headless_capture.py lines 379-396): gets the
global instance, checks `is_available`, and either performs the capture
(external result `captureResult`) or returns `None`. -/
def capture_headless_image (setup : Nat → Option Nat) (captureResult : Option String)
    (st : HCState) : Option String × HCState :=
  let (c, st') := get_headless_capture setup st
  if c.is_available then (captureResult, st') else (none, st')

/-- `is_headless_available` (headless_capture.py lines 398-401). -/
def is_headless_available (setup : Nat → Option Nat) (st : HCState) :
    Bool × HCState :=
  let (c, st') := get_headless_capture setup st
  (c.is_available, st')

/-!  ## Concrete inputs used by witnesses -/

/-- A concrete decode environment: base64 decoding fails exactly on the
payload `!`, and any decoded byte string opens as a 2x2 raster. -/
def envW : DecodeEnv :=
  { b64decode := fun str => if str = "!" then none else some [str.length]
    imageOpen := fun bs => some { w := 2, h := 2, pixels := bs } }

/-- A concrete PNG re-encoder. -/
def encW : PILImage → String := fun img => toString img.w

def d1W : ImageData :=
  { request_id := "abc123", image_data := "AAA", format := "png", width := 2, height := 2 }

def d2W : ImageData :=
  { request_id := "abc123", image_data := "BBBB", format := "png", width := 2, height := 2 }

/-- The frame the second submission of `d2W` stores at time 2. -/
def frameW : StoredFrame :=
  { pil_image := { w := 2, h := 2, pixels := [4] }, numpy_array := [4]
    timestamp := 2, format := "png", width := 2, height := 2 }

def frOld : StoredFrame :=
  { pil_image := { w := 1, h := 1, pixels := [0] }, numpy_array := [0]
    timestamp := 699, format := "png", width := 1, height := 1 }

def frNew : StoredFrame :=
  { pil_image := { w := 1, h := 1, pixels := [1] }, numpy_array := [1]
    timestamp := 990, format := "png", width := 1, height := 1 }

/-- A store holding one entry of age 301 and one of age 10 at time 1000. -/
def storeW : Store := [("old-req", frOld), ("new-req", frNew)]

def envC6 : CaptureEnv :=
  { is_jupyter := true, server_ok := false
    fetchResponse := fun _ => FetchOutcome.notFound
    headless_import_ok := true, headless_available := true
    headless_result := some "img-data" }

def envC7 : CaptureEnv :=
  { is_jupyter := false, server_ok := false
    fetchResponse := fun _ => FetchOutcome.notFound
    headless_import_ok := true, headless_available := false
    headless_result := none }

def envC9 : CaptureEnv :=
  { is_jupyter := true, server_ok := true
    fetchResponse := fun _ => FetchOutcome.notFound
    headless_import_ok := true, headless_available := true
    headless_result := some "headless-data" }

/-- A `_setup_driver` outcome where every driver initialization fails. -/
def setupFail : Nat → Option Nat := fun _ => none

/-- A `_setup_driver` outcome where initialization yields a live driver. -/
def setupOkW : Nat → Option Nat := fun _ => some 7

def stW : HCState := { cached := none, constructions := 0 }

/-!  ## Association-list lemmas for the Python dict embedding -/

theorem dictGet_cons (p : String × StoredFrame) (t : Store) (k : String) :
    dictGet (p :: t) k = if p.1 = k then some p.2 else dictGet t k := by
  by_cases h : p.1 = k <;> simp [dictGet, List.find?_cons, h]

theorem dictContains_cons (p : String × StoredFrame) (t : Store) (k : String) :
    dictContains (p :: t) k = (decide (p.1 = k) || dictContains t k) := by
  simp [dictContains]

theorem dictGet_eq_none_of_not_contains (s : Store) (k : String)
    (h : dictContains s k = false) : dictGet s k = none := by
  induction s with
  | nil => rfl
  | cons p t ih =>
    rw [dictContains_cons] at h
    rcases Bool.or_eq_false_iff.mp h with ⟨h1, h2⟩
    rw [dictGet_cons, if_neg (by simpa using h1)]
    exact ih h2

theorem dictGet_dictSet_self (s : Store) (k : String) (v : StoredFrame) :
    dictGet (dictSet s k v) k = some v := by
  induction s with
  | nil => simp [dictSet, dictContains, dictGet, List.find?]
  | cons p t ih =>
    by_cases h : p.1 = k
    · have hc : dictContains (p :: t) k = true := by
        rw [dictContains_cons]; simp [h]
      simp only [dictSet, hc, if_true, List.map_cons, if_pos h]
      rw [dictGet_cons]; simp
    · have hstep : dictSet (p :: t) k v = p :: dictSet t k v := by
        by_cases hc : dictContains t k
        · have hpc : dictContains (p :: t) k = true := by
            rw [dictContains_cons]; simp [hc]
          simp only [dictSet, hpc, hc, if_true, List.map_cons, if_neg h]
        · have hpc : dictContains (p :: t) k = false := by
            rw [dictContains_cons]; simp [h, hc]
          simp only [dictSet, hpc, hc, if_false, Bool.false_eq_true, List.cons_append]
      rw [hstep, dictGet_cons, if_neg h]
      exact ih

theorem dictGet_dictDel (s : Store) (a k : String) :
    dictGet (dictDel s a) k = if k = a then none else dictGet s k := by
  induction s with
  | nil => by_cases h : k = a <;> simp [dictDel, dictGet, h]
  | cons p t ih =>
    by_cases hpa : p.1 = a
    · have : dictDel (p :: t) a = dictDel t a := by
        simp [dictDel, hpa]
      rw [this, ih, dictGet_cons]
      by_cases hk : k = a
      · simp [hk]
      · rw [if_neg hk, if_neg hk, if_neg (by rw [hpa]; exact fun h => hk h.symm)]
    · have : dictDel (p :: t) a = p :: dictDel t a := by
        simp [dictDel, hpa]
      rw [this, dictGet_cons, ih, dictGet_cons]
      by_cases hk : k = a
      · have hpk : ¬ p.1 = k := fun h => hpa (by rw [h, hk])
        simp [hk, hpk, hpa]
      · simp only [if_neg hk]

theorem dictGet_foldl_dictDel (L : List String) (s : Store) (k : String) :
    dictGet (L.foldl dictDel s) k = if L.contains k then none else dictGet s k := by
  induction L generalizing s with
  | nil => rfl
  | cons a L ih =>
    rw [List.foldl_cons, ih, dictGet_dictDel]
    by_cases hk : k = a
    · simp [hk]
    · have : (a == k) = false := by
        simpa using fun h => hk (by rw [h])
      simp [List.contains_cons, this, hk]

theorem dictContains_eq_isSome (s : Store) (k : String) :
    dictContains s k = (dictGet s k).isSome := by
  induction s with
  | nil => rfl
  | cons p t ih =>
    rw [dictContains_cons, dictGet_cons]
    by_cases h : p.1 = k <;> simp [h, ih]

theorem dictContains_dictDel_self (s : Store) (k : String) :
    dictContains (dictDel s k) k = false := by
  rw [dictContains_eq_isSome, dictGet_dictDel, if_pos rfl]
  rfl

theorem keys_dictSet (s : Store) (k : String) (v : StoredFrame) :
    (dictSet s k v).map Prod.fst =
      if dictContains s k then s.map Prod.fst else s.map Prod.fst ++ [k] := by
  by_cases hc : dictContains s k
  · simp only [dictSet, hc, if_true, List.map_map]
    apply List.map_congr_left
    intro p _
    by_cases h : p.1 = k <;> simp [h]
  · simp [dictSet, hc]

theorem contains_iff_mem_keys (s : Store) (k : String) :
    dictContains s k = true ↔ k ∈ s.map Prod.fst := by
  simp only [dictContains, List.any_eq_true, decide_eq_true_eq, List.mem_map]

theorem not_contains_iff_not_mem_keys (s : Store) (k : String) :
    dictContains s k = false ↔ k ∉ s.map Prod.fst := by
  rw [← contains_iff_mem_keys, Bool.eq_false_iff, ne_eq]

theorem nodup_keys_dictSet (s : Store) (k : String) (v : StoredFrame)
    (h : (s.map Prod.fst).Nodup) : ((dictSet s k v).map Prod.fst).Nodup := by
  rw [keys_dictSet]
  by_cases hc : dictContains s k
  · simpa [hc]
  · rw [if_neg (by simp [hc])]
    have hk : k ∉ s.map Prod.fst :=
      (not_contains_iff_not_mem_keys s k).mp (by simpa using hc)
    refine List.Nodup.append h (List.nodup_singleton k) ?_
    intro a ha hb
    rw [List.mem_singleton] at hb
    subst hb
    exact hk ha

theorem contains_true_iff_mem {α : Type} [BEq α] [LawfulBEq α] (l : List α) (a : α) :
    l.contains a = true ↔ a ∈ l :=
  List.elem_iff

theorem filter_keys_subset (q : String × StoredFrame → Bool) (s : Store) :
    ((s.filter q).map Prod.fst) ⊆ s.map Prod.fst := by
  intro a ha
  rw [List.mem_map] at ha ⊢
  obtain ⟨p, hp, he⟩ := ha
  exact ⟨p, List.mem_of_mem_filter hp, he⟩

theorem expired_keys_contains (now ma : Int) (s : Store) (k : String)
    (hnd : (s.map Prod.fst).Nodup) :
    ((s.filter (fun p => now - p.2.timestamp > ma)).map Prod.fst).contains k =
      (match dictGet s k with
       | some f => decide (now - f.timestamp > ma)
       | none => false) := by
  induction s with
  | nil => rfl
  | cons p t ih =>
    rw [List.map_cons, List.nodup_cons] at hnd
    rw [dictGet_cons]
    by_cases hq : now - p.2.timestamp > ma
    · rw [List.filter_cons_of_pos (by simpa using hq), List.map_cons]
      by_cases hpk : p.1 = k
      · simp [List.contains_cons, hpk, hq]
      · have : (k == p.1) = false := by
          simpa using fun he => hpk (by rw [he])
        rw [List.contains_cons, this, Bool.false_or, ih hnd.2, if_neg hpk]
    · rw [List.filter_cons_of_neg (by simpa using hq)]
      by_cases hpk : p.1 = k
      · rw [if_pos hpk]
        have hnm : k ∉ (t.filter (fun p => now - p.2.timestamp > ma)).map Prod.fst :=
          fun hmem => hnd.1 (hpk ▸ filter_keys_subset _ t hmem)
        have : ((t.filter (fun p => now - p.2.timestamp > ma)).map Prod.fst).contains k
            = false := by
          rw [← Bool.not_eq_true, contains_true_iff_mem]
          exact hnm
        rw [this]
        simp [hq]
      · rw [if_neg hpk, ih hnd.2]

theorem length_filter_key_le_one (s : Store) (k : String)
    (h : (s.map Prod.fst).Nodup) :
    (s.filter (fun p => p.1 = k)).length ≤ 1 := by
  induction s with
  | nil => simp
  | cons p t ih =>
    rw [List.map_cons, List.nodup_cons] at h
    by_cases hk : p.1 = k
    · rw [List.filter_cons_of_pos (by simpa using hk)]
      have hempty : t.filter (fun p => decide (p.1 = k)) = [] := by
        rw [List.filter_eq_nil_iff]
        intro q hq hdec
        have hqk : q.1 = k := by simpa using hdec
        exact h.1 (by
          rw [hk]
          exact hqk ▸ List.mem_map_of_mem Prod.fst hq)
      rw [hempty]
      simp
    · rw [List.filter_cons_of_neg (by simpa using hk)]
      exact ih h.2

theorem splitOnCommaAux_no_comma (l : List Char) (acc : List Char) (h : ',' ∉ l) :
    splitOnCommaAux l acc = [acc.reverse ++ l] := by
  induction l generalizing acc with
  | nil => simp [splitOnCommaAux]
  | cons c cs ih =>
    have hc : ¬ c = ',' := fun he => h (by simp [he])
    rw [splitOnCommaAux, if_neg hc, ih _ (fun hm => h (List.mem_cons_of_mem _ hm))]
    simp

theorem splitOnCommaAux_split (pre rest acc : List Char) (h : ',' ∉ pre) :
    splitOnCommaAux (pre ++ ',' :: rest) acc =
      (acc.reverse ++ pre) :: splitOnCommaAux rest [] := by
  induction pre generalizing acc with
  | nil => simp [splitOnCommaAux]
  | cons c cs ih =>
    have hc : ¬ c = ',' := fun he => h (by simp [he])
    rw [List.cons_append, splitOnCommaAux, if_neg hc,
      ih _ (fun hm => h (List.mem_cons_of_mem _ hm))]
    simp

theorem stripDataURI_splits (pre rest : List Char)
    (hpre : ',' ∉ pre) (hrest : ',' ∉ rest) :
    stripDataURI (String.mk (pre ++ ',' :: rest)) = String.mk rest := by
  have hmem : (',' : Char) ∈ pre ++ ',' :: rest := by simp
  have hcontains : (pre ++ ',' :: rest).contains ',' = true :=
    (contains_true_iff_mem _ _).mpr hmem
  have htl : (String.mk (pre ++ ',' :: rest)).toList = pre ++ ',' :: rest := rfl
  rw [stripDataURI, htl, if_pos hcontains, splitOnComma,
    splitOnCommaAux_split pre rest [] hpre, splitOnCommaAux_no_comma rest [] hrest]
  simp

theorem commands_foldl_executeCode (cs : List String) (v : JS3DMol) :
    cs.foldl (JS3DMol.executeCode true) v =
      { v with commands := v.commands ++ cs } := by
  induction cs generalizing v with
  | nil => simp
  | cons c cs ih =>
    rw [List.foldl_cons, ih]
    simp [JS3DMol.executeCode]

theorem pollLoop_spec (env : CaptureEnv) (fuel attempt attempts slept : Nat) :
    (pollLoop env fuel attempt attempts slept).2.1 ≤ attempts + fuel ∧
    attempts ≤ (pollLoop env fuel attempt attempts slept).2.1 ∧
    (pollLoop env fuel attempt attempts slept).2.2 + attempts ≤
      slept + (pollLoop env fuel attempt attempts slept).2.1 ∧
    (∀ d, (pollLoop env fuel attempt attempts slept).1 = some d →
      ∃ i, attempt ≤ i ∧ i < attempt + fuel ∧
        env.fetchResponse i = FetchOutcome.okSuccess d) := by
  induction fuel generalizing attempt attempts slept with
  | zero =>
    refine ⟨by simp [pollLoop], by simp [pollLoop], by simp [pollLoop], ?_⟩
    intro d hd
    simp [pollLoop] at hd
  | succ fuel ih =>
    cases hr : env.fetchResponse attempt with
    | okSuccess d =>
      refine ⟨by simp [pollLoop, hr]; try omega, by simp [pollLoop, hr],
        by simp [pollLoop, hr], ?_⟩
      intro d' hd'
      simp [pollLoop, hr] at hd'
      exact ⟨attempt, le_refl _, by omega, by rw [hr, hd']⟩
    | okOther m =>
      obtain ⟨h1, h2, h3, h4⟩ := ih (attempt + 1) (attempts + 1) slept
      refine ⟨by simp [pollLoop, hr]; omega, by simp [pollLoop, hr]; omega,
        by simp [pollLoop, hr]; omega, ?_⟩
      intro d hd
      simp only [pollLoop, hr] at hd
      obtain ⟨i, hi1, hi2, hi3⟩ := h4 d hd
      exact ⟨i, by omega, by omega, hi3⟩
    | notFound =>
      obtain ⟨h1, h2, h3, h4⟩ := ih (attempt + 1) (attempts + 1) (slept + 1)
      refine ⟨by simp [pollLoop, hr]; omega, by simp [pollLoop, hr]; omega,
        by simp [pollLoop, hr]; omega, ?_⟩
      intro d hd
      simp only [pollLoop, hr] at hd
      obtain ⟨i, hi1, hi2, hi3⟩ := h4 d hd
      exact ⟨i, by omega, by omega, hi3⟩
    | otherStatus code =>
      obtain ⟨h1, h2, h3, h4⟩ := ih (attempt + 1) (attempts + 1) slept
      refine ⟨by simp [pollLoop, hr]; omega, by simp [pollLoop, hr]; omega,
        by simp [pollLoop, hr]; omega, ?_⟩
      intro d hd
      simp only [pollLoop, hr] at hd
      obtain ⟨i, hi1, hi2, hi3⟩ := h4 d hd
      exact ⟨i, by omega, by omega, hi3⟩
    | requestError =>
      refine ⟨by simp [pollLoop, hr]; try omega, by simp [pollLoop, hr],
        by simp [pollLoop, hr], ?_⟩
      intro d hd
      simp [pollLoop, hr] at hd

/-!  ## Claim theorems -/

/-- C1 (counterexample): on a session with one enqueued command, `show`
executes it but leaves `commands` still holding it, so the queue is not
empty afterwards and a second `show` re-executes the same command. -/
theorem C1_counterexample :
    ((JS3DMol.showViewer true
        { width := 400, height := 400, id := "viewer_1",
          commands := ["viewer.render();"] }).1 = ["viewer.render();"]) ∧
    ((JS3DMol.showViewer true
        { width := 400, height := 400, id := "viewer_1",
          commands := ["viewer.render();"] }).2.commands = ["viewer.render();"]) ∧
    ¬ ((JS3DMol.showViewer true
        { width := 400, height := 400, id := "viewer_1",
          commands := ["viewer.render();"] }).2.commands = []) ∧
    ((JS3DMol.showViewer true
        (JS3DMol.showViewer true
          { width := 400, height := 400, id := "viewer_1",
            commands := ["viewer.render();"] }).2).1 = ["viewer.render();"]) := by
  decide

/-- C1 (amended): for every sequence of commands enqueued via
`executeCode`, `show` executes them exactly once per invocation in exactly
the enqueue order, but it leaves the session's command queue unchanged
rather than empty, so a second `show` re-executes the whole sequence. -/
theorem C1_flush_order_queue_retained (w h : Int) (idStr : String) (cs : List String) :
    ((cs.foldl (JS3DMol.executeCode true)
        { width := w, height := h, id := idStr, commands := [] }).showViewer true).1 = cs ∧
    ((cs.foldl (JS3DMol.executeCode true)
        { width := w, height := h, id := idStr, commands := [] }).showViewer true).2 =
      cs.foldl (JS3DMol.executeCode true)
        { width := w, height := h, id := idStr, commands := [] } ∧
    (((cs.foldl (JS3DMol.executeCode true)
        { width := w, height := h, id := idStr, commands := [] }).showViewer
          true).2.showViewer true).1 = cs := by
  rw [commands_foldl_executeCode]
  cases cs with
  | nil => simp [JS3DMol.showViewer, JS3DMol.execute_queued_commands]
  | cons c cs =>
    simp [JS3DMol.showViewer, JS3DMol.execute_queued_commands]

/-- C2: submitting twice under the same request_id stores exactly the
frame of the second submission (last-wins replacement), and the store
keeps at most one entry per request_id. -/
theorem C2_last_submission_wins (env : DecodeEnv) (enc : PILImage → String)
    (t1 t2 : Int) (s : Store) (d1 d2 : ImageData) (img1 img2 : PILImage)
    (b1 b2 : List Nat)
    (_hid : d1.request_id = d2.request_id)
    (h1 : env.b64decode (stripDataURI d1.image_data) = some b1)
    (h1o : env.imageOpen b1 = some img1)
    (h2 : env.b64decode (stripDataURI d2.image_data) = some b2)
    (h2o : env.imageOpen b2 = some img2) :
    dictGet (convert_image env t2 (convert_image env t1 s d1).2 d2).2 d2.request_id =
      some { pil_image := img2, numpy_array := img2.pixels, timestamp := t2,
             format := d2.format, width := d2.width, height := d2.height } ∧
    get_image enc (convert_image env t2 (convert_image env t1 s d1).2 d2).2
        d2.request_id "numpy" =
      (Except.ok (GetImageView.numpy img2.pixels),
        (convert_image env t2 (convert_image env t1 s d1).2 d2).2) ∧
    ((s.map Prod.fst).Nodup → ∀ k,
      ((convert_image env t2 (convert_image env t1 s d1).2 d2).2.filter
        (fun p => p.1 = k)).length ≤ 1) := by
  have e1 : (convert_image env t1 s d1).2 =
      dictSet s d1.request_id
        { pil_image := img1, numpy_array := img1.pixels, timestamp := t1,
          format := d1.format, width := d1.width, height := d1.height } := by
    simp [convert_image, h1, h1o]
  have e2 : (convert_image env t2 (convert_image env t1 s d1).2 d2).2 =
      dictSet (convert_image env t1 s d1).2 d2.request_id
        { pil_image := img2, numpy_array := img2.pixels, timestamp := t2,
          format := d2.format, width := d2.width, height := d2.height } := by
    simp [convert_image, h2, h2o]
  have hget : dictGet (convert_image env t2 (convert_image env t1 s d1).2 d2).2
      d2.request_id =
      some { pil_image := img2, numpy_array := img2.pixels, timestamp := t2,
             format := d2.format, width := d2.width, height := d2.height } := by
    rw [e2]
    exact dictGet_dictSet_self _ _ _
  refine ⟨hget, ?_, ?_⟩
  · simp [get_image, hget]
  · intro hnd k
    apply length_filter_key_le_one
    rw [e2, e1]
    exact nodup_keys_dictSet _ _ _ (nodup_keys_dictSet _ _ _ hnd)

/-- C2 witness: two concrete submissions under `abc123`; the store ends
holding the second frame. -/
theorem C2_witness :
    dictGet (convert_image envW 2 (convert_image envW 1 [] d1W).2 d2W).2 "abc123" =
      some frameW := by
  have h := C2_last_submission_wins envW encW 1 2 [] d1W d2W
    { w := 2, h := 2, pixels := [3] } { w := 2, h := 2, pixels := [4] }
    [3] [4] (by decide) (by decide) (by decide) (by decide) (by decide)
  exact h.1

/-- C3: for every store with distinct keys and every max_age, the sweep
removes exactly the entries whose age strictly exceeds max_age: a swept
entry's key becomes unfetchable (404 on `get_image`), a younger entry is
untouched. -/
theorem C3_age_sweep (now ma : Int) (s : Store) (k : String)
    (enc : PILImage → String) (fmt : String)
    (hnd : (s.map Prod.fst).Nodup) :
    dictGet (cleanup_old_requests now s ma) k =
      (match dictGet s k with
       | some f => if now - f.timestamp > ma then none else some f
       | none => none) ∧
    (∀ f, dictGet s k = some f → now - f.timestamp > ma →
      (get_image enc (cleanup_old_requests now s ma) k fmt).1 = Except.error 404) := by
  have hmain : dictGet (cleanup_old_requests now s ma) k =
      (match dictGet s k with
       | some f => if now - f.timestamp > ma then none else some f
       | none => none) := by
    simp only [cleanup_old_requests]
    rw [dictGet_foldl_dictDel, expired_keys_contains now ma s k hnd]
    cases hget : dictGet s k with
    | none => simp
    | some f =>
      by_cases hexp : now - f.timestamp > ma
      · simp [hexp]
      · simp [hexp]
  refine ⟨hmain, ?_⟩
  intro f hf hexp
  have hnone : dictGet (cleanup_old_requests now s ma) k = none := by
    rw [hmain, hf]
    simp [hexp]
  simp [get_image, hnone]

/-- C3 witness: sweeping with max_age 300 at time 1000 a store holding an
entry of age 301 and one of age 10 leaves only the younger reachable. -/
theorem C3_witness :
    dictGet (cleanup_old_requests 1000 storeW 300) "old-req" = none ∧
    dictGet (cleanup_old_requests 1000 storeW 300) "new-req" = some frNew := by
  constructor
  · exact ((C3_age_sweep 1000 300 storeW "old-req" encW "pil" (by decide)).1).trans
      (by decide)
  · exact ((C3_age_sweep 1000 300 storeW "new-req" encW "pil" (by decide)).1).trans
      (by decide)

/-- C4: fetching a request_id that was never submitted yields a 404 and
leaves the store unchanged. -/
theorem C4_fetch_not_found (enc : PILImage → String) (s : Store) (k fmt : String)
    (h : dictContains s k = false) :
    get_image enc s k fmt = (Except.error 404, s) := by
  have hn : dictGet s k = none := dictGet_eq_none_of_not_contains s k h
  simp [get_image, hn]

/-- C4 witness: fetching `does-not-exist` from the empty store. -/
theorem C4_witness :
    get_image encW [] "does-not-exist" "pil" = (Except.error 404, []) :=
  C4_fetch_not_found encW [] "does-not-exist" "pil" rfl

/-- C5: `convert_image` strips the part of the payload up to and including
the comma before decoding (for a data-URI payload whose prefix and body
are comma-free), and any decode failure — base64 or raster — produces a
400 client error with the store left unchanged. -/
theorem C5_strip_then_decode_failure (env : DecodeEnv) (now : Int) (s : Store)
    (pre rest : List Char) (hpre : ',' ∉ pre) (hrest : ',' ∉ rest) :
    stripDataURI (String.mk (pre ++ ',' :: rest)) = String.mk rest ∧
    (∀ d : ImageData, env.b64decode (stripDataURI d.image_data) = none →
      convert_image env now s d = (Except.error 400, s)) ∧
    (∀ (d : ImageData) (bs : List Nat),
      env.b64decode (stripDataURI d.image_data) = some bs →
      env.imageOpen bs = none →
      convert_image env now s d = (Except.error 400, s)) := by
  refine ⟨stripDataURI_splits pre rest hpre hrest, ?_, ?_⟩
  · intro d hd
    simp [convert_image, hd]
  · intro d bs hb ho
    simp [convert_image, hb, ho]

/-- C5 witness: a concrete data-URI payload whose stripped body fails
base64 decoding is rejected with 400 and the empty store stays empty. -/
theorem C5_witness :
    stripDataURI (String.mk ("data:image/png;base64".toList ++ ',' :: "!".toList)) =
      String.mk "!".toList ∧
    convert_image envW 1 []
        { request_id := "r1", image_data := "data:image/png;base64,!" } =
      (Except.error 400, []) := by
  have h := C5_strip_then_decode_failure envW 1 []
    "data:image/png;base64".toList "!".toList (by decide) (by decide)
  refine ⟨h.1, ?_⟩
  apply h.2.1
  decide

/-- C6: in a Jupyter environment, if the liveness probe fails
(`server_ok = false`) or the polling loop exhausts without a result, the
auto-detect entry point returns exactly the headless path's result, with
the fallback note prepended to its diagnostics — no caller intervention. -/
theorem C6_fallback_on_unreachable_or_exhaustion (env : CaptureEnv)
    (hj : env.is_jupyter = true)
    (hfail : env.server_ok = false ∨ (pollLoop env max_attempts 0 0 0).1 = none) :
    get_image_data env false =
      Except.ok ((get_image_data_headless env).1,
        "FastAPI method failed, falling back to headless capture" ::
          (get_image_data_headless env).2) := by
  have hfa : get_image_data_fastapi env = none := by
    rcases hfail with h | h
    · simp [get_image_data_fastapi, h]
    · simp [get_image_data_fastapi, h]
  cases hgd : get_image_data_headless env with
  | mk r log => simp [get_image_data, hj, hfa, hgd]

/-- C6 witness: a Jupyter environment whose capture service is
unreachable falls back to a successful headless capture. -/
theorem C6_witness :
    get_image_data envC6 false =
      Except.ok (some "img-data",
        ["FastAPI method failed, falling back to headless capture",
         "Headless capture successful"]) :=
  (C6_fallback_on_unreachable_or_exhaustion envC6 rfl (Or.inl rfl)).trans (by rfl)

/-- C7: the auto-detect entry point never propagates an exception — it
always returns a value — and when no live display host exists and the
headless driver is unavailable (either the dependency import fails or no
driver could be started) it returns an absent result together with a
dependency-missing diagnostic. -/
theorem C7_no_raise (env : CaptureEnv) (force : Bool) :
    (∃ r, get_image_data env force = Except.ok r) ∧
    (env.is_jupyter = false → env.headless_import_ok = true →
      env.headless_available = false →
      get_image_data env force = Except.ok (none,
        ["Headless capture not available",
         "Install selenium: pip install selenium webdriver-manager"])) ∧
    (env.is_jupyter = false → env.headless_import_ok = false →
      get_image_data env force = Except.ok (none,
        ["Headless capture dependencies not available",
         "Install selenium: pip install selenium webdriver-manager"])) := by
  refine ⟨?_, ?_, ?_⟩
  · cases force with
    | true => exact ⟨get_image_data_headless env, by simp [get_image_data]⟩
    | false =>
      by_cases hj : env.is_jupyter
      · cases hfa : get_image_data_fastapi env with
        | none =>
          cases hgd : get_image_data_headless env with
          | mk r log =>
            exact ⟨(r, "FastAPI method failed, falling back to headless capture" :: log),
              by simp [get_image_data, hj, hfa, hgd]⟩
        | some r => exact ⟨(some r, []), by simp [get_image_data, hj, hfa]⟩
      · exact ⟨get_image_data_headless env, by simp [get_image_data, hj]⟩
  · intro hj him hav
    have hh : get_image_data_headless env =
        (none, ["Headless capture not available",
                "Install selenium: pip install selenium webdriver-manager"]) := by
      simp [get_image_data_headless, get_image_data_headless_try, him, hav]
    cases force with
    | true => simp [get_image_data, hh]
    | false => simp [get_image_data, hj, hh]
  · intro hj him
    have hh : get_image_data_headless env =
        (none, ["Headless capture dependencies not available",
                "Install selenium: pip install selenium webdriver-manager"]) := by
      simp [get_image_data_headless, get_image_data_headless_try, him]
    cases force with
    | true => simp [get_image_data, hh]
    | false => simp [get_image_data, hj, hh]

/-- C7 witness: no live display host and no headless driver — the entry
point returns a value (no exception), namely `none` plus a
dependency-missing diagnostic. -/
theorem C7_witness :
    (∃ r, get_image_data envC7 false = Except.ok r) ∧
    get_image_data envC7 false = Except.ok (none,
      ["Headless capture not available",
       "Install selenium: pip install selenium webdriver-manager"]) := by
  have h := C7_no_raise envC7 false
  exact ⟨h.1, h.2.1 rfl rfl rfl⟩

/-- C8 (counterexample): when driver setup fails, the cached instance is
dead (`is_available = false`), yet a second `get_headless_capture` returns
the very same instance and state — the cached instance is not discarded
and no fresh one is created (the construction count stays 1), and a
capture attempt through it just returns `none`. -/
theorem C8_counterexample :
    (get_headless_capture setupFail stW).1.is_available = false ∧
    get_headless_capture setupFail (get_headless_capture setupFail stW).2 =
      ((get_headless_capture setupFail stW).1,
       (get_headless_capture setupFail stW).2) ∧
    (get_headless_capture setupFail
        (get_headless_capture setupFail stW).2).2.constructions = 1 ∧
    capture_headless_image setupFail (some "frame")
        (get_headless_capture setupFail stW).2 =
      (none, (get_headless_capture setupFail stW).2) := by
  decide

/-- C8 (amended): exactly one `HeadlessCapture` instance is cached per
process — the first call constructs it and every later call returns the
same cached instance with no new construction; `is_available` is checked
before each capture and a dead driver makes the capture return `none`,
but the cached instance is retained, never discarded or recreated. -/
theorem C8_single_cached_instance (setup : Nat → Option Nat)
    (res : Option String) (st : HCState) :
    (get_headless_capture setup st).2.cached =
      some (get_headless_capture setup st).1 ∧
    get_headless_capture setup (get_headless_capture setup st).2 =
      ((get_headless_capture setup st).1, (get_headless_capture setup st).2) ∧
    ((get_headless_capture setup st).1.is_available = false →
      capture_headless_image setup res st =
        (none, (get_headless_capture setup st).2)) ∧
    ((get_headless_capture setup st).1.is_available = true →
      capture_headless_image setup res st =
        (res, (get_headless_capture setup st).2)) := by
  cases hc : st.cached with
  | none =>
    refine ⟨by simp [get_headless_capture, hc], by simp [get_headless_capture, hc], ?_, ?_⟩
    · intro h
      simp only [get_headless_capture, hc] at h ⊢
      simp [capture_headless_image, get_headless_capture, hc, h]
    · intro h
      simp only [get_headless_capture, hc] at h ⊢
      simp [capture_headless_image, get_headless_capture, hc, h]
  | some c =>
    refine ⟨by simp [get_headless_capture, hc], by simp [get_headless_capture, hc], ?_, ?_⟩
    · intro h
      simp only [get_headless_capture, hc] at h ⊢
      simp [capture_headless_image, get_headless_capture, hc, h]
    · intro h
      simp only [get_headless_capture, hc] at h ⊢
      simp [capture_headless_image, get_headless_capture, hc, h]

/-- C8 witness: with a live driver the capture succeeds and the state is
the one produced by the single construction. -/
theorem C8_witness :
    capture_headless_image setupOkW (some "frame") stW =
      (some "frame", (get_headless_capture setupOkW stW).2) :=
  (C8_single_cached_instance setupOkW (some "frame") stW).2.2.2 (by decide)

/-- C9: the retrieval polling loop makes at most `max_attempts` fetch
attempts and sleeps at most one second per attempt (linear total
backoff); on success the returned payload is exactly what some in-budget
fetch attempt delivered, and on exhaustion the auto-detect entry point
transitions to the headless path. -/
theorem C9_bounded_polling (env : CaptureEnv)
    (hs : env.server_ok = true) (hj : env.is_jupyter = true) :
    (pollLoop env max_attempts 0 0 0).2.1 ≤ max_attempts ∧
    (pollLoop env max_attempts 0 0 0).2.2 ≤ (pollLoop env max_attempts 0 0 0).2.1 ∧
    (∀ d, (pollLoop env max_attempts 0 0 0).1 = some d →
      get_image_data_fastapi env = some d ∧
      ∃ i, i < max_attempts ∧ env.fetchResponse i = FetchOutcome.okSuccess d) ∧
    ((pollLoop env max_attempts 0 0 0).1 = none →
      get_image_data env false =
        Except.ok ((get_image_data_headless env).1,
          "FastAPI method failed, falling back to headless capture" ::
            (get_image_data_headless env).2)) := by
  obtain ⟨h1, h2, h3, h4⟩ := pollLoop_spec env max_attempts 0 0 0
  refine ⟨by simpa using h1, by omega, ?_, ?_⟩
  · intro d hd
    refine ⟨by simp [get_image_data_fastapi, hs, hd], ?_⟩
    obtain ⟨i, _, hi2, hi3⟩ := h4 d hd
    exact ⟨i, by simpa using hi2, hi3⟩
  · intro hnone
    have hfa : get_image_data_fastapi env = none := by
      simp [get_image_data_fastapi, hs, hnone]
    cases hgd : get_image_data_headless env with
    | mk r log => simp [get_image_data, hj, hfa, hgd]

/-- C9 witness: with every fetch answering 404, the loop stops within the
budget and the orchestrator hands over to the headless path. -/
theorem C9_witness :
    (pollLoop envC9 max_attempts 0 0 0).2.1 ≤ max_attempts ∧
    get_image_data envC9 false =
      Except.ok (some "headless-data",
        ["FastAPI method failed, falling back to headless capture",
         "Headless capture successful"]) := by
  have h := C9_bounded_polling envC9 rfl rfl
  exact ⟨h.1, (h.2.2.2 (by rfl)).trans (by rfl)⟩

/-- C10: the cleanup endpoint never fails — present ids are removed with
status `cleaned`, absent ids answer `not_found` as a plain response with
the store untouched, and running cleanup twice equals running it once
(the second run reports `not_found`). -/
theorem C10_cleanup_never_fails (s : Store) (k : String) :
    (dictContains s k = true → cleanup_request s k = ("cleaned", dictDel s k)) ∧
    (dictContains s k = false → cleanup_request s k = ("not_found", s)) ∧
    (cleanup_request (cleanup_request s k).2 k).2 = (cleanup_request s k).2 ∧
    (dictContains s k = true →
      (cleanup_request (cleanup_request s k).2 k).1 = "not_found") := by
  refine ⟨?_, ?_, ?_, ?_⟩
  · intro h
    simp [cleanup_request, h]
  · intro h
    simp [cleanup_request, h]
  · by_cases h : dictContains s k
    · simp [cleanup_request, h, dictContains_dictDel_self]
    · simp [cleanup_request, h]
  · intro h
    simp [cleanup_request, h, dictContains_dictDel_self]

/-- C10 witness: deleting a present id answers `cleaned` and removes it;
deleting it again answers `not_found` with the store unchanged. -/
theorem C10_witness :
    cleanup_request storeW "old-req" = ("cleaned", [("new-req", frNew)]) ∧
    cleanup_request [("new-req", frNew)] "old-req" =
      ("not_found", [("new-req", frNew)]) := by
  constructor
  · exact ((C10_cleanup_never_fails storeW "old-req").1 (by decide)).trans (by decide)
  · exact (C10_cleanup_never_fails [("new-req", frNew)] "old-req").2.1 (by decide)
